import Mathlib

/-!
Verification development for the structMan structural-element / optimization
entity assembly engine (src/structMan/ses/ses.py and
src/structMan/sol200/cards_opt.py).

Python dicts are modelled as association lists with in-place replacement
(`dictSet`), numeric values as rationals, and Python exceptions as an explicit
result constructor carrying the mutable state at the moment of the raise
(mutations performed before a raise persist, as they do on Python objects).
-/

/-- Lookup in a Python-dict model: first (hence only, when built with
`dictSet`) binding of the key. -/
def dictGet {κ α : Type} [DecidableEq κ] : List (κ × α) → κ → Option α
  | [], _ => none
  | p :: rest, k => if p.1 = k then some p.2 else dictGet rest k

/-- Membership test of a Python-dict model (`key in d`). -/
def dictHas {κ α : Type} [DecidableEq κ] (d : List (κ × α)) (k : κ) : Bool :=
  (dictGet d k).isSome

/-- Assignment `d[k] = v` on a Python-dict model: replace the binding in place
when the key exists, otherwise append. -/
def dictSet {κ α : Type} [DecidableEq κ] : List (κ × α) → κ → α → List (κ × α)
  | [], k, v => [(k, v)]
  | p :: rest, k, v => if p.1 = k then (k, v) :: rest else p :: dictSet rest k v

/-- Python str.rjust: pad on the left with `c` up to width `w` (no
truncation when the string is already at least `w` long). -/
def rjust (s : String) (w : Nat) (c : Char) : String :=
  if s.length < w then String.mk (List.replicate (w - s.length) c) ++ s else s

/-! ## Optimization cards (src/structMan/sol200/cards_opt.py)

Each card class owns a class attribute `uniqueid = 8000000`; `__init__` does
`self.id = CLS.uniqueid; CLS.uniqueid += 1`. The counters are modelled by
threading a `Nat` through each constructor; note that the counters of the
different classes are independent of each other. `None`/`''` placeholder
attribute values are modelled as `none`. -/

/-- Design response DRESP1 (cards_opt.py lines 32-71). `atta`, `attb`, `atti`
are response attributes; integer codes or element ids, `none` for the
`None`/`''` placeholders. -/
structure DRESP1 where
  id : Nat
  label : String
  rtype : String
  ptype : String
  region : Option Int
  atta : Option Int
  attb : Option Int
  atti : Option Int
deriving DecidableEq, Repr

/-- Initial value of the DRESP1 class counter (cards_opt.py line 51). -/
def DRESP1.uniqueid : Nat := 8000000

/-- DRESP1.__init__ : allocates `self.id` from the class counter and
increments it, then stores the fields. Returns the card and the new counter. -/
def dresp1_new (uniqueid : Nat) (label rtype ptype : String)
    (region atta attb atti : Option Int) : DRESP1 × Nat :=
  (⟨uniqueid, label, rtype, ptype, region, atta, attb, atti⟩, uniqueid + 1)

/-- Design response DRESP2 (cards_opt.py lines 125-156): equation response,
with the DRESP23 base-class lists `dvars`, `dtable`, `dresp1`. -/
structure DRESP2 where
  id : Nat
  label : String
  eqid : Nat
  region : Option Int
  dvars : List Nat
  dtable : List String
  dresp1 : List Nat
deriving DecidableEq, Repr

/-- Initial value of the DRESP2 class counter (cards_opt.py line 146),
independent of the DRESP1 counter. -/
def DRESP2.uniqueid : Nat := 8000000

/-- DRESP2.__init__ : allocates from the DRESP2 class counter; the DRESP23
base initializes the three lists empty. -/
def dresp2_new (uniqueid : Nat) (label : String) (eqid : Nat) : DRESP2 × Nat :=
  (⟨uniqueid, label, eqid, none, [], [], []⟩, uniqueid + 1)

/-- A response held in the shared `optmodel.dresps` mapping: ses.py registers
DRESP1 and DRESP2 objects through the same `add_dresp`. -/
inductive Resp where
  | r1 : DRESP1 → Resp
  | r2 : DRESP2 → Resp
deriving DecidableEq, Repr

/-- Identifier of a response, whichever card class it is. -/
def Resp.id : Resp → Nat
  | .r1 d => d.id
  | .r2 d => d.id

/-- Design variable DESVAR (cards_opt.py lines 237-267). -/
structure DESVAR where
  id : Nat
  label : String
  xinit : ℚ
  xlb : ℚ
  xub : ℚ
deriving DecidableEq, Repr

/-- Initial value of the DESVAR class counter (cards_opt.py line 256). -/
def DESVAR.uniqueid : Nat := 8000000

/-- DESVAR.__init__ : allocates `self.id` from the class counter then
increments it. -/
def desvar_new (uniqueid : Nat) (label : String) (xinit xlb xub : ℚ) :
    DESVAR × Nat :=
  (⟨uniqueid, label, xinit, xlb, xub⟩, uniqueid + 1)

/-- Ids handed out by `k` successive DESVAR constructions starting from
counter value `uniqueid`. -/
def desvarIds (uniqueid : Nat) : Nat → List Nat
  | 0 => []
  | k + 1 =>
    (desvar_new uniqueid "dv" 0 0 0).1.id ::
      desvarIds (desvar_new uniqueid "dv" 0 0 0).2 k

/-- Equation card DEQATN (cards_opt.py lines 472-500): the equation text is
opaque to the assembly engine. -/
structure DEQATN where
  id : Nat
  eq : String
deriving DecidableEq, Repr

/-- Initial value of the DEQATN class counter (cards_opt.py line 495). -/
def DEQATN.uniqueid : Nat := 8000000

/-- DEQATN.__init__. -/
def deqatn_new (uniqueid : Nat) (eq : String) : DEQATN × Nat :=
  (⟨uniqueid, eq⟩, uniqueid + 1)

/-- Modelled from the spec: the DVPREL2 class is imported and used by ses.py
(`from structMan.sol200 import ... DVPREL2`) but its definition is not under
src/ (cards_opt.py only defines DVPREL1). Per the spec it is the equation-form
property relation: a property field tied to an Equation plus ordered lists of
design-variable ids and constant-table names, filled through `add_dvar` and
`add_dtable`. Its identifier counter is seeded at the same high base as every
other kind. -/
structure DVPREL2 where
  id : Nat
  ptype : String
  pid : Nat
  pname : String
  eqid : Nat
  dvars : List Nat
  dtable : List String
deriving DecidableEq, Repr

/-- Modelled from the spec: DVPREL2 construction, allocating from its own
counter seeded at the fixed high base. -/
def dvprel2_new (uniqueid : Nat) (ptype : String) (pid : Nat) (pname : String)
    (eqid : Nat) : DVPREL2 × Nat :=
  (⟨uniqueid, ptype, pid, pname, eqid, [], []⟩, uniqueid + 1)

/-- DVPREL2.add_dvar : append a design-variable id to the ordered list. -/
def DVPREL2.add_dvar (d : DVPREL2) (i : Nat) : DVPREL2 :=
  { d with dvars := d.dvars ++ [i] }

/-- DVPREL2.add_dtable : append a constant-table label to the ordered list. -/
def DVPREL2.add_dtable (d : DVPREL2) (s : String) : DVPREL2 :=
  { d with dtable := d.dtable ++ [s] }

/-- Design constraint DCONSTR (cards_opt.py lines 357-376). Faithful to the
source: unlike every other card class it has NO `uniqueid` counter and NO `id`
attribute; only `dcid`, `rid` and the two bounds are stored. -/
structure DCONSTR where
  dcid : Nat
  rid : Nat
  lallow : Option ℚ
  uallow : Option ℚ
deriving DecidableEq, Repr

/-- Variable link DLINK (cards_opt.py lines 392-447). -/
structure DLINK where
  id : Nat
  ddvid : Nat
  c0 : ℚ
  cmult : ℚ
  idvs : List Nat
  cs : List ℚ
deriving DecidableEq, Repr

/-- Initial value of the DLINK class counter (cards_opt.py line 435). -/
def DLINK.uniqueid : Nat := 8000000

/-- DLINK.__init__ : allocates the id, stores the fields, then asserts
`len(idvs) == len(cs)` and `len(idvs) > 0`; an assertion failure raises before
the object is ever returned to the caller. Returns the card and the advanced
counter on success. -/
def dlink_new (uniqueid : Nat) (ddvid : Nat) (idvs : List Nat) (cs : List ℚ)
    (c0 cmult : ℚ) : Except String (DLINK × Nat) :=
  if idvs.length ≠ cs.length then
    .error "AssertionError: Lengths must be the same"
  else if idvs.length = 0 then
    .error "AssertionError: At least one independent variable required"
  else
    .ok (⟨uniqueid, ddvid, c0, cmult, idvs, cs⟩, uniqueid + 1)

/-- Modelled from the spec: registration of a constructed VariableLink into
the model registry (the OptimizationModel class is not under src/); inserts
the entity under its identifier. -/
def register_dlink (dlinks : List (Nat × DLINK)) (d : DLINK) :
    List (Nat × DLINK) :=
  dictSet dlinks d.id d

/-- Construct a DLINK and, only if construction succeeded, register it into
the model registry. -/
def dlink_build_register (dlinks : List (Nat × DLINK)) (uniqueid : Nat)
    (ddvid : Nat) (idvs : List Nat) (cs : List ℚ) (c0 cmult : ℚ) :
    Except String (List (Nat × DLINK) × Nat) :=
  match dlink_new uniqueid ddvid idvs cs c0 cmult with
  | .error e => .error e
  | .ok (d, uniqueid2) => .ok (register_dlink dlinks d, uniqueid2)

/-! ## Finite elements and the central-element query (ses.py lines 173-182) -/

/-- Reference to the property entry of a finite element (`e.pid.pid` and
`e.pid.type` in ses.py). -/
structure PropRef where
  pid : Nat
  type : String
deriving DecidableEq, Repr

/-- A resolved finite element: id, element type tag, property reference, node
positions (rational coordinates). -/
structure FE where
  eid : Nat
  type : String
  pid : PropRef
  nodes : List (ℚ × ℚ × ℚ)
deriving DecidableEq, Repr

/-- Componentwise mean of a list of 3-dimensional points (numpy
`mean(axis=0)`). -/
def ptsMean (ps : List (ℚ × ℚ × ℚ)) : ℚ × ℚ × ℚ :=
  ((ps.map (fun p => p.1)).sum / (ps.length : ℚ),
   (ps.map (fun p => p.2.1)).sum / (ps.length : ℚ),
   (ps.map (fun p => p.2.2)).sum / (ps.length : ℚ))

/-- Centroid of a finite element: mean of its node positions
(`e.get_node_positions().mean(axis=0)`). -/
def centroid (e : FE) : ℚ × ℚ × ℚ :=
  ptsMean e.nodes

/-- Squared Euclidean distance between two points (`((x-cg)**2).sum(axis=1)`
summed over the three coordinates). -/
def sqDist (p q : ℚ × ℚ × ℚ) : ℚ :=
  (p.1 - q.1) ^ 2 + (p.2.1 - q.2.1) ^ 2 + (p.2.2 - q.2.2) ^ 2

/-- Index of the first minimum of a list of rationals (numpy `argmin`: the
first index attaining the minimum). -/
def argminList : List ℚ → Nat
  | [] => 0
  | [_] => 0
  | a :: b :: rest =>
    if a ≤ (b :: rest).getD (argminList (b :: rest)) 0 then 0
    else argminList (b :: rest) + 1

/-- SE.get_central_element (ses.py lines 173-182): returns `none` when the
geometry has not been resolved (`self.elements is None`); otherwise the
element at the argmin of the squared distances between each element centroid
and the mean of all centroids. -/
def get_central_element : Option (List FE) → Option FE
  | none => none
  | some es =>
    es.get? (argminList ((es.map centroid).map
      (fun p => sqDist p (ptsMean (es.map centroid)))))

/-! ## The shared state: counters, optmodel, structural-element ledger -/

/-- The per-class `uniqueid` counters of the card classes (process-wide
mutable class attributes in the source). -/
structure Counters where
  desvar : Nat
  deqatn : Nat
  dvprel2 : Nat
  dresp1 : Nat
  dresp2 : Nat
deriving DecidableEq, Repr

/-- Modelled from the spec: the OptimizationModel object (`self.model.optmodel`
in ses.py) is not under src/; ses.py uses these attributes as plain Python
dicts, which is all this model needs. `dconstrs` is keyed by constraint id as
ses.py line 170 intends. -/
structure OptModel where
  dtables : List (String × ℚ)
  dtable_prefixes : List (String × Nat)
  dresps : List (Nat × Resp)
  dvars : List (Nat × DESVAR)
  deqatns : List (Nat × DEQATN)
  dvprels : List (Nat × DVPREL2)
  dconstrs : List (Nat × DCONSTR)
deriving DecidableEq, Repr

/-- The per-instance ledger and attributes of one structural element
(SE / SE1D / Flange1D): local entity lists, the dvar-label and dtable dicts,
the constraint-kind to design-constraint-set-id dict, the sizing profile and
its dimensions, and the resolved geometry. -/
structure SEState where
  dresps : List Resp
  dvars : List (String × DESVAR)
  dvprels : List DVPREL2
  deqatns : List DEQATN
  dtables : List (String × String × ℚ)
  dconstrs : List DCONSTR
  dvars_created : Bool
  constraints : List (String × Nat)
  profile : String
  t : ℚ
  t_lb : ℚ
  t_ub : ℚ
  b : ℚ
  b_lb : ℚ
  b_ub : ℚ
  elements : Option (List FE)
deriving DecidableEq, Repr

/-- The full mutable state an assembly step can touch. -/
structure St where
  cnt : Counters
  om : OptModel
  se : SEState
deriving DecidableEq, Repr

/-- Outcome of a Python method call: normal return, or an exception carrying
the state at the moment of the raise (mutations made before the raise
persist). -/
inductive PyResult (α : Type) where
  | ok : α → PyResult α
  | exn : String → St → PyResult α
deriving DecidableEq, Repr

/-- Sequencing of Python calls: an exception short-circuits. -/
def pyBind {α β : Type} : PyResult α → (α → PyResult β) → PyResult β
  | .ok a, f => f a
  | .exn m s, _ => .exn m s

/-- Whether a call raised. -/
def pyIsExn : PyResult St → Bool
  | .ok _ => false
  | .exn _ _ => true

/-- The state after a call, normal or exceptional. -/
def pyStateOf : PyResult St → St
  | .ok s => s
  | .exn _ s => s

/-- The exception message of a call (empty when it returned normally). -/
def pyMsg : PyResult St → String
  | .ok _ => ""
  | .exn m _ => m

/-! ## SE entity-contribution methods (ses.py lines 59-170) -/

/-- SE.add_dtable (ses.py lines 59-96). If the key already exists in the
model-wide table: with `len(key) >= 8` raise; otherwise bump (or start) the
per-base-name collision counter, right-justify its decimal form into the
remaining character budget, and raise when even the suffixed key exceeds 8
characters. Then a bare raise if the ORIGINAL key is already in this
element's own ledger, else store `[key, value]` locally under the original
key and `value` model-wide under the resolved key, returning the resolved
key. -/
def add_dtable (st : St) (key : String) (value : ℚ) :
    PyResult (String × St) :=
  let protect := fun (st : St) (origkey newkey : String) (v : ℚ) =>
    if dictHas st.se.dtables origkey then
      .exn "RuntimeError: No active exception to re-raise" st
    else
      PyResult.ok (newkey,
        { st with
          se := { st.se with
                  dtables := dictSet st.se.dtables origkey (newkey, v) }
          om := { st.om with dtables := dictSet st.om.dtables newkey v } })
  if dictHas st.om.dtables key then
    if 8 ≤ key.length then
      .exn (key ++ " is an already existing DTABLE entry!") st
    else
      let newc : Nat :=
        if dictHas st.om.dtable_prefixes key then
          (dictGet st.om.dtable_prefixes key).getD 0 + 1
        else 0
      let st2 : St :=
        { st with om := { st.om with
            dtable_prefixes := dictSet st.om.dtable_prefixes key newc } }
      let key2 : String := key ++ rjust (toString newc) (8 - key.length) '0'
      if 8 < key2.length then .exn "ValueError: Use a smaller key" st2
      else protect st2 key key2 value
  else protect st key key value

/-- SE.add_dresp (ses.py lines 99-109): append to the element's list and
assign into the model-wide dict keyed by `dresp.id` — a plain dict assignment
with no duplicate check. -/
def add_dresp (st : St) (r : Resp) : St :=
  { st with
    se := { st.se with dresps := st.se.dresps ++ [r] }
    om := { st.om with dresps := dictSet st.om.dresps r.id r } }

/-- SE.add_deqatn (ses.py lines 112-122). -/
def add_deqatn (st : St) (d : DEQATN) : St :=
  { st with
    se := { st.se with deqatns := st.se.deqatns ++ [d] }
    om := { st.om with deqatns := dictSet st.om.deqatns d.id d } }

/-- SE.add_dvar (ses.py lines 125-137): bare raise when the element already
owns a variable under that label, else store in both views. -/
def add_dvar (st : St) (dvar : DESVAR) : PyResult St :=
  if dictHas st.se.dvars dvar.label then
    .exn "RuntimeError: No active exception to re-raise" st
  else
    .ok { st with
      se := { st.se with dvars := dictSet st.se.dvars dvar.label dvar }
      om := { st.om with dvars := dictSet st.om.dvars dvar.id dvar } }

/-- SE.add_dvprel (ses.py lines 140-150). -/
def add_dvprel (st : St) (d : DVPREL2) : St :=
  { st with
    se := { st.se with dvprels := st.se.dvprels ++ [d] }
    om := { st.om with dvprels := dictSet st.om.dvprels d.id d } }

/-- SE.add_constraint (ses.py lines 153-170): builds
`DCONSTR(dcid, dresp.id, lb, ub)` and appends it to the element's list; the
final line `self.model.optmodel.dconstrs[dconstr.id] = dconstr` then
dereferences `dconstr.id`, an attribute the DCONSTR class of cards_opt.py
does not define, so the call raises AttributeError after the local append and
the model-wide mapping is never written. -/
def add_constraint (st : St) (dcid : Nat) (dresp : Resp)
    (lb ub : Option ℚ) : PyResult St :=
  let dconstr : DCONSTR := ⟨dcid, dresp.id, lb, ub⟩
  let st2 : St :=
    { st with se := { st.se with dconstrs := st.se.dconstrs ++ [dconstr] } }
  .exn "AttributeError: DCONSTR instance has no attribute id" st2

/-! ## Flange1D create_dvars and constraint generation (ses.py lines 257-672) -/

/-- Modelled from the spec: the output-code table `output_codes_SOL200.OUTC`
is not under src/; the entries ses.py reads are opaque integer response
attribute codes whose concrete values the assembly logic never inspects. -/
def OUTC_STRESS_CBAR_EndA_maximum : Int := 7

/-- Modelled from the spec: output code for `OUTC['STRESS']['CBAR']['End A
minimum']`. -/
def OUTC_STRESS_CBAR_EndA_minimum : Int := 8

/-- Modelled from the spec: output code for `OUTC['STRESS']['CBAR']['Axial']`. -/
def OUTC_STRESS_CBAR_Axial : Int := 2

/-- The `DEQATN(...); add_deqatn; DVPREL2(...); dvprel.add_dvar(...)* ;
dvprel.add_dtable(...)* ; add_dvprel` sequence that create_dvars repeats for
each property field (ses.py lines 499-528 and 539-568): design-variable ids
are appended before constant labels, as in the source call order. -/
def mk_eq_prel (st : St) (eq ptype : String) (pid : Nat) (pname : String)
    (dvids : List Nat) (dtables : List String) : St :=
  let pr := deqatn_new st.cnt.deqatn eq
  let st2 := add_deqatn { st with cnt := { st.cnt with deqatn := pr.2 } } pr.1
  let pv := dvprel2_new st2.cnt.dvprel2 ptype pid pname pr.1.id
  let dvprel := dtables.foldl DVPREL2.add_dtable
    (dvids.foldl DVPREL2.add_dvar pv.1)
  add_dvprel { st2 with cnt := { st2.cnt with dvprel2 := pv.2 } } dvprel

/-- Flange1D.create_dvars (ses.py lines 486-570). Guarded by the
`dvars_created` flag (set before the work, so the method is a no-op on repeat
calls). Profile `'t'`: one design variable labelled `'STRBt'` plus the
constant `'STRb'`; profile `'t_b'`: two design variables labelled `'STRBt'`
and `'STRBb'`; for property types other than PBAR raises NotImplementedError;
for any other profile the method silently does nothing further. -/
def create_dvars (st : St) : PyResult St :=
  if st.se.dvars_created then .ok st
  else
    let st := { st with se := { st.se with dvars_created := true } }
    match st.se.elements with
    | none => .exn "TypeError: NoneType object is not subscriptable" st
    | some [] => .exn "IndexError: list index out of range" st
    | some (e0 :: _) =>
      let pid := e0.pid.pid
      let ptype := e0.pid.type
      if st.se.profile = "t" then
        let pd := desvar_new st.cnt.desvar "STRBt" st.se.t st.se.t_lb st.se.t_ub
        let st := { st with cnt := { st.cnt with desvar := pd.2 } }
        pyBind (add_dvar st pd.1) fun st =>
        pyBind (add_dtable st "STRb" st.se.b) fun ks =>
        let st := ks.2
        if ptype = "PBAR" then
          let st := mk_eq_prel st "A(t,b) = t*b" ptype pid "A" [pd.1.id] [ks.1]
          let st := mk_eq_prel st "I1(t,b) = b*t**3/12." ptype pid "I1"
            [pd.1.id] [ks.1]
          let st := mk_eq_prel st "I2(t,b) = t*b**3/12. + t*b*(b/2.)**2"
            ptype pid "I2" [pd.1.id] [ks.1]
          .ok (mk_eq_prel st
            "I1(t,b) = b*t**3/12.;I2 = t*b**3/12. + t*b*(b/2.)**2;J = I1 + I2"
            ptype pid "J" [pd.1.id] [ks.1])
        else .exn (ptype ++ " not supported!") st
      else if st.se.profile = "t_b" then
        let pt := desvar_new st.cnt.desvar "STRBt" st.se.t st.se.t_lb st.se.t_ub
        let ph := desvar_new pt.2 "STRBb" st.se.b st.se.b_lb st.se.b_ub
        let st := { st with cnt := { st.cnt with desvar := ph.2 } }
        pyBind (add_dvar st pt.1) fun st =>
        pyBind (add_dvar st ph.1) fun st =>
        if ptype = "PBAR" then
          let st := mk_eq_prel st "A(t,b) = t*b" ptype pid "A"
            [pt.1.id, ph.1.id] []
          let st := mk_eq_prel st "I1(t,b) = b*t**3/12." ptype pid "I1"
            [pt.1.id, ph.1.id] []
          let st := mk_eq_prel st "I2(t,b) = t*b**3/12. + t*b*(b/2.)**2"
            ptype pid "I2" [pt.1.id, ph.1.id] []
          .ok (mk_eq_prel st
            "I1(t,b) = b*t**3/12.;I2 = t*b**3/12. + t*b*(b/2.)**2;J = I1 + I2"
            ptype pid "J" [pt.1.id, ph.1.id] [])
        else .exn (ptype ++ " not supported!") st
      else .ok st

/-- SE1D.constrain_stress (ses.py lines 257-298): after create_dvars, picks
the central element, then for `Fy > 0` builds a DRESP1 labelled `'STRmaxS'`
with the End-A-maximum code under the `'stress_tension'` set and calls
`add_constraint(dcid, dresp1, None, Fy)`; otherwise (including `Fy == 0`) a
DRESP1 labelled `'STRminS'` with the End-A-minimum code under
`'stress_compression'` and `add_constraint(dcid, dresp1, Fy, None)`.
Element types other than CBAR raise NotImplementedError. -/
def constrain_stress (st : St) (Fy : ℚ) : PyResult St :=
  pyBind (create_dvars st) fun st =>
  match st.se.elements with
  | none => .exn "AttributeError: NoneType object has no attribute eid" st
  | some [] => .exn "AttributeError: NoneType object has no attribute eid" st
  | some (e0 :: rest) =>
    match get_central_element (some (e0 :: rest)) with
    | none => .exn "AttributeError: NoneType object has no attribute eid" st
    | some ce =>
      let eltype := e0.type
      if 0 < Fy then
        match dictGet st.se.constraints "stress_tension" with
        | none => .exn "KeyError: stress_tension" st
        | some dcid =>
          if eltype = "CBAR" then
            let pr := dresp1_new st.cnt.dresp1 "STRmaxS" "STRESS" "ELEM"
              none (some OUTC_STRESS_CBAR_EndA_maximum) none
              (some (Int.ofNat ce.eid))
            let st := { st with cnt := { st.cnt with dresp1 := pr.2 } }
            let st := add_dresp st (.r1 pr.1)
            add_constraint st dcid (.r1 pr.1) none (some Fy)
          else .exn "NotImplementedError" st
      else
        match dictGet st.se.constraints "stress_compression" with
        | none => .exn "KeyError: stress_compression" st
        | some dcid =>
          if eltype = "CBAR" then
            let pr := dresp1_new st.cnt.dresp1 "STRminS" "STRESS" "ELEM"
              none (some OUTC_STRESS_CBAR_EndA_minimum) none
              (some (Int.ofNat ce.eid))
            let st := { st with cnt := { st.cnt with dresp1 := pr.2 } }
            let st := add_dresp st (.r1 pr.1)
            add_constraint st dcid (.r1 pr.1) (some Fy) none
          else .exn "NotImplementedError" st

/-- The fixed closed-form margin-of-safety equation text that
Flange1D.constrain_buckling registers (ses.py lines 598-606 and 637-645,
identical in both profile branches). -/
def bucklingEq : String :=
  "bf(dim1,dim3,dim2,E,nu,FA) = dim1-dim3/2.;bw = dim2-dim3;tw = dim3;x = bf/bw;Kw = -206.08*x**5 + 588.3*x**4 - 596.43*x**3 + 249.62*x**2 -41.924*x + 6.4545;SIGMAcr = Kw*PI(1)**2*E*tw**2/(12.*(1.-nu**2)*bw**2);MS = SIGMAcr/ABS(MIN(FA, 0.0001))-1.;"

/-- Flange1D.constrain_buckling (ses.py lines 573-672). After create_dvars:
for `method == 1` and profile `'t'`, registers the buckling DEQATN and then
reads `self.dvars['STRZt']`, `self.dvars['STRZb']` and
`self.dtables['STRh']/['STRE']/['STRnu']` (a missing key raises KeyError, the
Python dict semantics) before building the axial-stress DRESP1, the DRESP2
and the lower-bound-only constraint; profile `'t_b'` analogously with
`'STRZh'` and without `'STRh'`. Any other method/profile combination falls
through with no effect. -/
def constrain_buckling (st : St) (method : Nat) (ms : ℚ) : PyResult St :=
  pyBind (create_dvars st) fun st =>
  match st.se.elements with
  | none => .exn "TypeError: NoneType object is not subscriptable" st
  | some [] => .exn "IndexError: list index out of range" st
  | some (e0 :: rest) =>
    let eltype := e0.type
    if method = 1 ∧ st.se.profile = "t" then
      let pq := deqatn_new st.cnt.deqatn bucklingEq
      let st := add_deqatn { st with cnt := { st.cnt with deqatn := pq.2 } } pq.1
      match dictGet st.se.dvars "STRZt" with
      | none => .exn "KeyError: STRZt" st
      | some dvar_t =>
        match dictGet st.se.dvars "STRZb" with
        | none => .exn "KeyError: STRZb" st
        | some dvar_b =>
          match dictGet st.se.dtables "STRh" with
          | none => .exn "KeyError: STRh" st
          | some dtable_h =>
            match dictGet st.se.dtables "STRE" with
            | none => .exn "KeyError: STRE" st
            | some dtable_E =>
              match dictGet st.se.dtables "STRnu" with
              | none => .exn "KeyError: STRnu" st
              | some dtable_nu =>
                if eltype = "CBAR" then
                  match get_central_element (some (e0 :: rest)) with
                  | none =>
                    .exn "AttributeError: NoneType object has no attribute eid" st
                  | some ce =>
                    let pf := dresp1_new st.cnt.dresp1 "STRZFA" "STRESS" "ELEM"
                      none (some OUTC_STRESS_CBAR_Axial) none
                      (some (Int.ofNat ce.eid))
                    let st := { st with cnt := { st.cnt with dresp1 := pf.2 } }
                    let st := add_dresp st (.r1 pf.1)
                    let p2 := dresp2_new st.cnt.dresp2 "STRBUCK" pq.1.id
                    let d2 := { p2.1 with
                      dvars := [dvar_b.id, dvar_t.id]
                      dtable := [dtable_h.1, dtable_E.1, dtable_nu.1]
                      dresp1 := [pf.1.id] }
                    let st := { st with cnt := { st.cnt with dresp2 := p2.2 } }
                    let st := add_dresp st (.r2 d2)
                    match dictGet st.se.constraints "buckling" with
                    | none => .exn "KeyError: buckling" st
                    | some dcid => add_constraint st dcid (.r2 d2) (some ms) none
                else .exn "NotImplementedError" st
    else if method = 1 ∧ st.se.profile = "t_b" then
      let pq := deqatn_new st.cnt.deqatn bucklingEq
      let st := add_deqatn { st with cnt := { st.cnt with deqatn := pq.2 } } pq.1
      match dictGet st.se.dvars "STRZt" with
      | none => .exn "KeyError: STRZt" st
      | some dvar_t =>
        match dictGet st.se.dvars "STRZb" with
        | none => .exn "KeyError: STRZb" st
        | some dvar_b =>
          match dictGet st.se.dvars "STRZh" with
          | none => .exn "KeyError: STRZh" st
          | some dvar_h =>
            match dictGet st.se.dtables "STRE" with
            | none => .exn "KeyError: STRE" st
            | some dtable_E =>
              match dictGet st.se.dtables "STRnu" with
              | none => .exn "KeyError: STRnu" st
              | some dtable_nu =>
                if eltype = "CBAR" then
                  match get_central_element (some (e0 :: rest)) with
                  | none =>
                    .exn "AttributeError: NoneType object has no attribute eid" st
                  | some ce =>
                    let pf := dresp1_new st.cnt.dresp1 "STRZFA" "STRESS" "ELEM"
                      none (some OUTC_STRESS_CBAR_Axial) none
                      (some (Int.ofNat ce.eid))
                    let st := { st with cnt := { st.cnt with dresp1 := pf.2 } }
                    let st := add_dresp st (.r1 pf.1)
                    let p2 := dresp2_new st.cnt.dresp2 "STRBUCK" pq.1.id
                    let d2 := { p2.1 with
                      dvars := [dvar_b.id, dvar_t.id, dvar_h.id]
                      dtable := [dtable_E.1, dtable_nu.1]
                      dresp1 := [pf.1.id] }
                    let st := { st with cnt := { st.cnt with dresp2 := p2.2 } }
                    let st := add_dresp st (.r2 d2)
                    match dictGet st.se.constraints "buckling" with
                    | none => .exn "KeyError: buckling" st
                    | some dcid => add_constraint st dcid (.r2 d2) (some ms) none
                else .exn "NotImplementedError" st
    else .ok st

/-! ## SE1D.read_forces (ses.py lines 202-254)

The analysis-results source is external (§6 of the spec); the two layouts it
can take are modelled directly after the attribute accesses ses.py performs.
Output layout in both paths: `[component, element-within-feature, load-case]`,
with the CBAR component order bendingMomentA(1,2), bendingMomentB(1,2),
shear(1,2), axial, torque. -/

/-- One load case of the per-load-case object-map layout
(`op2.cbar_force[subcase]` when `not op2.is_vectorized`): named per-component
mappings keyed by element id, modelled as total functions (missing ids are a
contract violation at this layer, per §4.4). -/
structure CbarForceObj where
  bendingMomentA : Nat → ℚ × ℚ
  bendingMomentB : Nat → ℚ × ℚ
  shear : Nat → ℚ × ℚ
  axial : Nat → ℚ
  torque : Nat → ℚ

/-- The non-vectorized branch of SE1D.read_forces: for each of the 8 fixed
component vectors, look every feature element id up in the corresponding
mapping of every load case. -/
def read_forces_obj (eids : List Nat) (subcases : List CbarForceObj) :
    List (List (List ℚ)) :=
  [eids.map (fun e => subcases.map (fun sc => (sc.bendingMomentA e).1)),
   eids.map (fun e => subcases.map (fun sc => (sc.bendingMomentA e).2)),
   eids.map (fun e => subcases.map (fun sc => (sc.bendingMomentB e).1)),
   eids.map (fun e => subcases.map (fun sc => (sc.bendingMomentB e).2)),
   eids.map (fun e => subcases.map (fun sc => (sc.shear e).1)),
   eids.map (fun e => subcases.map (fun sc => (sc.shear e).2)),
   eids.map (fun e => subcases.map (fun sc => sc.axial e)),
   eids.map (fun e => subcases.map (fun sc => sc.torque e))]

/-- One load case of the vectorized layout (`op2.cbar_force[subcase]` when
`op2.is_vectorized`): an `element` ordering and a data array
`[history, element-row, component]`; read_forces reads the element ordering
from the first load case only and takes the last history slice of each. -/
structure CbarForceVecSub where
  element : List Nat
  data : List (List (List ℚ))
deriving DecidableEq, Repr

instance : Inhabited CbarForceVecSub := ⟨⟨[], []⟩⟩

/-- The row selection `data[-1, i_op2, :]`: rows of the last history slice
whose op2 element id belongs to the feature (`np.in1d(force1.element,
self.eids)`), kept in op2 order. -/
def maskSelect (element eids : List Nat) (rows : List (List ℚ)) :
    List (List ℚ) :=
  ((element.zip rows).filter (fun p => eids.contains p.1)).map Prod.snd

/-- The masked scatter `forces[:, i_panel, i] = selected`: feature positions
whose eid belongs to the op2 ordering (`np.in1d(self.eids, force1.element)`)
receive the selected rows in order; other positions keep the `np.zeros`
fill. -/
def scatterRows (nv : Nat) (element : List Nat) :
    List Nat → List (List ℚ) → List (List ℚ)
  | [], _ => []
  | e :: rest, sel =>
    if element.contains e then
      sel.headD (List.replicate nv 0) :: scatterRows nv element rest sel.tail
    else
      List.replicate nv 0 :: scatterRows nv element rest sel

/-- `num_vectors = force1.data.shape[2]`: the component count of the first
load case's data array (numpy arrays are rectangular, so any row measures the
axis). -/
def vecNv (subs : List CbarForceVecSub) : Nat :=
  (((subs.headD default).data.getLastD []).headD []).length

/-- The vectorized branch of SE1D.read_forces: masks computed once from the
first load case's element ordering; per load case the last history slice is
row-selected, scattered into feature positions, and the last two axes are
swapped so entry `[c][j][i]` is component `c` of feature element `j` in load
case `i`. -/
def read_forces_vec (eids : List Nat) (subs : List CbarForceVecSub) :
    List (List (List ℚ)) :=
  (List.range (vecNv subs)).map (fun c =>
    (List.range eids.length).map (fun j =>
      subs.map (fun sub =>
        (((scatterRows (vecNv subs) (subs.headD default).element eids
            (maskSelect (subs.headD default).element eids
              (sub.data.getLastD []))).getD j []).getD c 0))))

/-- The row of underlying per-element values for element `e` of load case
`sc`, in the fixed CBAR component order shared by both layouts. -/
def objRow (sc : CbarForceObj) (e : Nat) : List ℚ :=
  [(sc.bendingMomentA e).1, (sc.bendingMomentA e).2,
   (sc.bendingMomentB e).1, (sc.bendingMomentB e).2,
   (sc.shear e).1, (sc.shear e).2, sc.axial e, sc.torque e]

/-- The two results sources expose the same underlying per-element,
per-load-case force data: same number of load cases, every vectorized row
(last history slice, aligned with the first load case's element ordering)
carries exactly the object-map values of its element, and the vectorized
source exposes data for every feature element. -/
def sameUnderlyingData (eids : List Nat) (subsObj : List CbarForceObj)
    (subsVec : List CbarForceVecSub) : Prop :=
  subsVec ≠ [] ∧
  subsVec.length = subsObj.length ∧
  ((subsVec.zip subsObj).all (fun p =>
    decide (p.1.data.getLastD [] =
      ((subsVec.headD default).element).map (objRow p.2))) = true) ∧
  (eids.all (fun e => ((subsVec.headD default).element).contains e) = true)

/-! ## Concrete states used by evaluations, counterexamples and witnesses -/

/-- All card-class counters at their initial value 8000000. -/
def initCounters : Counters :=
  ⟨DESVAR.uniqueid, DEQATN.uniqueid, 8000000, DRESP1.uniqueid, DRESP2.uniqueid⟩

/-- An empty optimization model. -/
def emptyOm : OptModel := ⟨[], [], [], [], [], [], []⟩

/-- A freshly constructed structural-element ledger (geometry unresolved,
profile unset). -/
def emptySe : SEState :=
  ⟨[], [], [], [], [], [], false, [], "", 0, 0, 0, 0, 0, 0, none⟩

/-- An empty global state. -/
def stEmpty : St := ⟨initCounters, emptyOm, emptySe⟩

/-- A flange with profile `'t'`, one resolved CBAR element (eid 10, PBAR
property 100), dimensions set, distinct design-constraint-set ids per
constraint kind, over a fresh model. -/
def flangeSeT : SEState :=
  { emptySe with
    constraints := [("stress_tension", 1), ("stress_compression", 2),
      ("buckling", 3)]
    profile := "t"
    t := 2, t_lb := 1, t_ub := 3, b := 10, b_lb := 5, b_ub := 20
    elements := some [⟨10, "CBAR", ⟨100, "PBAR"⟩, [(0, 0, 0)]⟩] }

/-- The same flange state with a fresh model and counters. -/
def flangeT0 : St := ⟨initCounters, emptyOm, flangeSeT⟩

/-- The same flange with profile `'t_b'`. -/
def flangeTB0 : St :=
  ⟨initCounters, emptyOm, { flangeSeT with profile := "t_b" }⟩

/-- The first DRESP1 a fresh process constructs (counter at its base). -/
def c2_dresp1 : DRESP1 :=
  (dresp1_new DRESP1.uniqueid "STRZFA" "STRESS" "ELEM" none
    (some OUTC_STRESS_CBAR_Axial) none (some 10)).1

/-- The first DRESP2 a fresh process constructs (its own counter, same
base). -/
def c2_dresp2 : DRESP2 := (dresp2_new DRESP2.uniqueid "STRBUCK" 8000000).1

/-- A state whose model already holds the 8-character constant
`"ABCDEFGH"`. -/
def c8St : St :=
  { stEmpty with om := { emptyOm with dtables := [("ABCDEFGH", 3/2)] } }

/-- Counterexample object-map load case for the layout-equivalence claim:
element 10 carries components 1..8, element 11 carries 10..80. -/
def ceObjSub : CbarForceObj :=
  { bendingMomentA := fun e => if e = 10 then (1, 2) else (10, 20)
    bendingMomentB := fun e => if e = 10 then (3, 4) else (30, 40)
    shear := fun e => if e = 10 then (5, 6) else (50, 60)
    axial := fun e => if e = 10 then 7 else 70
    torque := fun e => if e = 10 then 8 else 80 }

/-- Counterexample vectorized load case describing the same underlying data,
with op2 element ordering `[10, 11]`. -/
def ceVecSub : CbarForceVecSub :=
  ⟨[10, 11], [[[1, 2, 3, 4, 5, 6, 7, 8], [10, 20, 30, 40, 50, 60, 70, 80]]]⟩

/-- Witness object-map load case with distinct literal values per element. -/
def wObjSub : CbarForceObj :=
  { bendingMomentA := fun e =>
      if e = 10 then (1, 2) else if e = 11 then (101, 102) else (201, 202)
    bendingMomentB := fun e =>
      if e = 10 then (3, 4) else if e = 11 then (103, 104) else (203, 204)
    shear := fun e =>
      if e = 10 then (5, 6) else if e = 11 then (105, 106) else (205, 206)
    axial := fun e => if e = 10 then 7 else if e = 11 then 107 else 207
    torque := fun e => if e = 10 then 8 else if e = 11 then 108 else 208 }

/-- Witness vectorized load case carrying exactly the object-map values of
elements `[10, 11, 12]`, in that order. -/
def wVecSub : CbarForceVecSub :=
  ⟨[10, 11, 12], [[10, 11, 12].map (objRow wObjSub)]⟩

/-! ## Basic dictionary lemmas -/

theorem dictGet_dictSet_self {κ α : Type} [DecidableEq κ]
    (d : List (κ × α)) (k : κ) (v : α) : dictGet (dictSet d k v) k = some v := by
  induction d with
  | nil => simp [dictSet, dictGet]
  | cons p rest ih =>
    by_cases h : p.1 = k
    · simp [dictSet, dictGet, h]
    · simp [dictSet, dictGet, h, ih]

theorem dictGet_dictSet_ne {κ α : Type} [DecidableEq κ]
    (d : List (κ × α)) (k k2 : κ) (v : α) (h : k2 ≠ k) :
    dictGet (dictSet d k v) k2 = dictGet d k2 := by
  have h2 : ¬ k = k2 := fun he => h he.symm
  induction d with
  | nil => simp [dictSet, dictGet, h2]
  | cons p rest ih =>
    by_cases hp : p.1 = k
    · simp [dictSet, dictGet, hp, h2]
    · simp only [dictSet, hp, if_false, dictGet]
      by_cases hq : p.1 = k2 <;> simp [hq, ih]

/-! ## C7: identifier allocation -/

theorem desvarIds_le (k : Nat) :
    ∀ uid, ∀ i ∈ desvarIds uid k, uid ≤ i := by
  induction k with
  | zero => intro uid i h; simp [desvarIds] at h
  | succ n ih =>
    intro uid i h
    simp only [desvarIds, desvar_new, List.mem_cons] at h
    rcases h with h | h
    · exact h ▸ Nat.le_refl _
    · exact Nat.le_of_succ_le (ih (uid + 1) i h)

theorem desvarIds_pairwise (k : Nat) :
    ∀ uid, List.Pairwise (· < ·) (desvarIds uid k) := by
  induction k with
  | zero => intro uid; simp [desvarIds]
  | succ n ih =>
    intro uid
    simp only [desvarIds, desvar_new]
    exact List.Pairwise.cons
      (fun i hi => Nat.lt_of_succ_le (desvarIds_le n (uid + 1) i hi)) (ih (uid + 1))

/-- C7: for every sequence of identifier allocations of one entity kind
(modelled on the DESVAR class counter, the `self.id = CLS.uniqueid;
CLS.uniqueid += 1` pattern shared by every card class), the returned
identifiers are strictly increasing, pairwise distinct, bounded below by the
fixed high base 8000000, and the first allocation returns the base itself;
the counter only ever advances, so no identifier is reused. -/
theorem desvar_allocation_strictly_increasing (k : Nat) :
    List.Pairwise (· < ·) (desvarIds DESVAR.uniqueid k) ∧
    (desvarIds DESVAR.uniqueid k).Nodup ∧
    (∀ i ∈ desvarIds DESVAR.uniqueid k, DESVAR.uniqueid ≤ i) ∧
    (0 < k → (desvarIds DESVAR.uniqueid k).head? = some DESVAR.uniqueid) := by
  refine ⟨desvarIds_pairwise k _, ?_, desvarIds_le k _, ?_⟩
  · exact (desvarIds_pairwise k _).imp (fun h => Nat.ne_of_lt h)
  · intro hk
    cases k with
    | zero => exact absurd hk (Nat.lt_irrefl 0)
    | succ n => simp [desvarIds, desvar_new]

/-- Witness for C7 at three allocations. -/
theorem desvar_allocation_strictly_increasing_witness :
    List.Pairwise (· < ·) (desvarIds DESVAR.uniqueid 3) ∧
    DESVAR.uniqueid ≤ 8000002 ∧
    (desvarIds DESVAR.uniqueid 3).head? = some DESVAR.uniqueid :=
  ⟨(desvar_allocation_strictly_increasing 3).1,
   (desvar_allocation_strictly_increasing 3).2.2.1 8000002 (by decide),
   (desvar_allocation_strictly_increasing 3).2.2.2 (by decide)⟩

/-! ## C9: VariableLink length mismatch -/

/-- C9: for every attempted DLINK construction whose independent-variable
list length differs from its multiplier list length, the constructor fails
with the length-mismatch assertion, and the construct-then-register sequence
therefore fails before anything reaches the model registry. -/
theorem dlink_length_mismatch (uniqueid ddvid : Nat) (idvs : List Nat)
    (cs : List ℚ) (c0 cmult : ℚ) (dlinks : List (Nat × DLINK))
    (h : idvs.length ≠ cs.length) :
    dlink_new uniqueid ddvid idvs cs c0 cmult =
      .error "AssertionError: Lengths must be the same" ∧
    dlink_build_register dlinks uniqueid ddvid idvs cs c0 cmult =
      .error "AssertionError: Lengths must be the same" := by
  have h1 : dlink_new uniqueid ddvid idvs cs c0 cmult =
      .error "AssertionError: Lengths must be the same" := by
    simp [dlink_new, h]
  exact ⟨h1, by simp [dlink_build_register, h1]⟩

/-- Witness for C9: two independent variables against one multiplier. -/
theorem dlink_length_mismatch_witness :
    dlink_new 8000000 9000000 [1, 2] [1] 0 1 =
      .error "AssertionError: Lengths must be the same" ∧
    dlink_build_register [] 8000000 9000000 [1, 2] [1] 0 1 =
      .error "AssertionError: Lengths must be the same" :=
  dlink_length_mismatch 8000000 9000000 [1, 2] [1] 0 1 [] (by decide)

/-! ## C8: constant-name conflict with no room to suffix -/

/-- C8: declaring a constant whose name has length at least 8 and is already
present in the model's constant table raises the name-conflict ValueError,
and the exception carries the state unchanged: nothing is stored or
re-suffixed, and the value under the existing name is untouched. -/
theorem add_dtable_conflict_long_name (st : St) (key : String) (value : ℚ)
    (hin : dictHas st.om.dtables key = true) (hlen : 8 ≤ key.length) :
    add_dtable st key value =
      .exn (key ++ " is an already existing DTABLE entry!") st := by
  simp [add_dtable, hin, hlen]

/-- Witness for C8 at the 8-character name "ABCDEFGH". -/
theorem add_dtable_conflict_long_name_witness :
    add_dtable c8St "ABCDEFGH" 7 =
      .exn ("ABCDEFGH" ++ " is an already existing DTABLE entry!") c8St :=
  add_dtable_conflict_long_name c8St "ABCDEFGH" 7 (by decide) (by decide)

/-! ## C2: the response registry silently overwrites on id collision -/

/-- C2, code evaluated at the failing input: the DRESP1 and DRESP2 class
counters are independent and both start at 8000000, so the first DRESP1 and
the first DRESP2 of a process receive the same identifier; `add_dresp`
registers both into the one shared `optmodel.dresps` mapping with a plain
dict assignment, so the second registration silently replaces the first
instead of failing with a duplicate-identifier error. -/
theorem add_dresp_overwrite_eval :
    c2_dresp1.id = c2_dresp2.id ∧
    (add_dresp stEmpty (.r1 c2_dresp1)).om.dresps = [(8000000, .r1 c2_dresp1)] ∧
    (add_dresp (add_dresp stEmpty (.r1 c2_dresp1)) (.r2 c2_dresp2)).om.dresps =
      [(8000000, .r2 c2_dresp2)] := by
  decide

/-! ## C4, C10, C3: constraint methods evaluated on a resolved CBAR flange -/

/-- C4, code evaluated at the failing input: on a resolved CBAR/PBAR flange,
`constrain_stress(50)` builds the tension-side DRESP1 (label STRmaxS,
End-A-maximum code, central element 10) and the DCONSTR with upper bound 50
and no lower bound under the `'stress_tension'` set, appends it to the
element ledger — and then raises AttributeError because DCONSTR instances
carry no `id`, so the model-wide constraint mapping stays empty; symmetric
evaluation for `constrain_stress(-50)` on the compression side. -/
theorem constrain_stress_sign_eval :
    pyIsExn (constrain_stress flangeT0 50) = true ∧
    pyMsg (constrain_stress flangeT0 50) =
      "AttributeError: DCONSTR instance has no attribute id" ∧
    (pyStateOf (constrain_stress flangeT0 50)).se.dconstrs =
      [⟨1, 8000000, none, some 50⟩] ∧
    (pyStateOf (constrain_stress flangeT0 50)).se.dresps =
      [.r1 ⟨8000000, "STRmaxS", "STRESS", "ELEM", none, some 7, none, some 10⟩] ∧
    (pyStateOf (constrain_stress flangeT0 50)).om.dconstrs = [] ∧
    pyIsExn (constrain_stress flangeT0 (-50)) = true ∧
    (pyStateOf (constrain_stress flangeT0 (-50))).se.dconstrs =
      [⟨2, 8000000, some (-50), none⟩] ∧
    (pyStateOf (constrain_stress flangeT0 (-50))).se.dresps =
      [.r1 ⟨8000000, "STRminS", "STRESS", "ELEM", none, some 8, none, some 10⟩] ∧
    (pyStateOf (constrain_stress flangeT0 (-50))).om.dconstrs = [] := by
  norm_num [constrain_stress, create_dvars, mk_eq_prel, add_dvar, add_dtable,
    add_dresp, add_deqatn, add_dvprel, add_constraint, pyBind, pyIsExn, pyMsg,
    pyStateOf, get_central_element, centroid, ptsMean, sqDist, argminList,
    dictGet, dictHas, dictSet, desvar_new, dresp1_new, dresp2_new, deqatn_new,
    dvprel2_new, DVPREL2.add_dvar, DVPREL2.add_dtable, Resp.id, flangeT0,
    flangeSeT, emptySe, emptyOm, initCounters, OUTC_STRESS_CBAR_EndA_maximum,
    OUTC_STRESS_CBAR_EndA_minimum, DESVAR.uniqueid, DEQATN.uniqueid,
    DRESP1.uniqueid, DRESP2.uniqueid]
  decide

/-- C10, code evaluated at the failing input: `constrain_stress(0)` takes the
compression branch (only strictly positive allowables take the tension
branch): DRESP1 labelled STRminS with the End-A-minimum code and a DCONSTR
with lower bound 0 and no upper bound under the `'stress_compression'` set —
which is then lost to the same missing-`id` AttributeError before reaching
the model-wide mapping. -/
theorem constrain_stress_zero_eval :
    pyIsExn (constrain_stress flangeT0 0) = true ∧
    pyMsg (constrain_stress flangeT0 0) =
      "AttributeError: DCONSTR instance has no attribute id" ∧
    (pyStateOf (constrain_stress flangeT0 0)).se.dconstrs =
      [⟨2, 8000000, some 0, none⟩] ∧
    (pyStateOf (constrain_stress flangeT0 0)).se.dresps =
      [.r1 ⟨8000000, "STRminS", "STRESS", "ELEM", none, some 8, none, some 10⟩] ∧
    (pyStateOf (constrain_stress flangeT0 0)).om.dconstrs = [] := by
  norm_num [constrain_stress, create_dvars, mk_eq_prel, add_dvar, add_dtable,
    add_dresp, add_deqatn, add_dvprel, add_constraint, pyBind, pyIsExn, pyMsg,
    pyStateOf, get_central_element, centroid, ptsMean, sqDist, argminList,
    dictGet, dictHas, dictSet, desvar_new, dresp1_new, dresp2_new, deqatn_new,
    dvprel2_new, DVPREL2.add_dvar, DVPREL2.add_dtable, Resp.id, flangeT0,
    flangeSeT, emptySe, emptyOm, initCounters, OUTC_STRESS_CBAR_EndA_maximum,
    OUTC_STRESS_CBAR_EndA_minimum, DESVAR.uniqueid, DEQATN.uniqueid,
    DRESP1.uniqueid, DRESP2.uniqueid]
  decide

/-- C3, code evaluated at the failing input: on a resolved CBAR/PBAR flange
with every prerequisite satisfied, `constrain_buckling(method=1, ms=0.1)`
after create_dvars registers the margin-of-safety DEQATN but then raises
KeyError looking up the design variable label `'STRZt'` — create_dvars stores
the variables under `'STRBt'`/`'STRBb'` and the constant under `'STRb'`,
never the `'STRZt'`/`'STRZb'`/`'STRZh'`/`'STRh'`/`'STRE'`/`'STRnu'` keys the
method reads — so neither the equation-composed response nor the buckling
constraint is ever registered, for profile `'t'` and profile `'t_b'` alike. -/
theorem constrain_buckling_keyerror_eval :
    pyMsg (constrain_buckling flangeT0 1 (1/10)) = "KeyError: STRZt" ∧
    (pyStateOf (constrain_buckling flangeT0 1 (1/10))).se.dresps = [] ∧
    (pyStateOf (constrain_buckling flangeT0 1 (1/10))).se.dconstrs = [] ∧
    (pyStateOf (constrain_buckling flangeT0 1 (1/10))).om.dresps = [] ∧
    (pyStateOf (constrain_buckling flangeT0 1 (1/10))).se.deqatns.length = 5 ∧
    pyMsg (constrain_buckling flangeTB0 1 (1/10)) = "KeyError: STRZt" ∧
    (pyStateOf (constrain_buckling flangeTB0 1 (1/10))).se.dresps = [] ∧
    (pyStateOf (constrain_buckling flangeTB0 1 (1/10))).se.dconstrs = [] ∧
    (pyStateOf (constrain_buckling flangeTB0 1 (1/10))).om.dresps = [] := by
  norm_num [constrain_buckling, create_dvars, mk_eq_prel, add_dvar, add_dtable,
    add_dresp, add_deqatn, add_dvprel, add_constraint, pyBind, pyIsExn, pyMsg,
    pyStateOf, get_central_element, centroid, ptsMean, sqDist, argminList,
    dictGet, dictHas, dictSet, desvar_new, dresp1_new, dresp2_new, deqatn_new,
    dvprel2_new, DVPREL2.add_dvar, DVPREL2.add_dtable, Resp.id, flangeT0,
    flangeTB0, flangeSeT, emptySe, emptyOm, initCounters, bucklingEq,
    OUTC_STRESS_CBAR_Axial, DESVAR.uniqueid, DEQATN.uniqueid,
    DRESP1.uniqueid, DRESP2.uniqueid]
  decide

/-! ## C6: central element -/

theorem argminList_lt_length : ∀ l : List ℚ, l ≠ [] → argminList l < l.length := by
  intro l
  induction l with
  | nil => intro h; exact absurd rfl h
  | cons a tail ih =>
    intro _
    cases tail with
    | nil => simp [argminList]
    | cons b rest =>
      by_cases hc : a ≤ (b :: rest).getD (argminList (b :: rest)) 0
      · simp only [argminList]
        rw [if_pos hc]
        simp
      · simp only [argminList, List.length_cons]
        rw [if_neg hc]
        exact Nat.succ_lt_succ (ih (by simp))

theorem argminList_le :
    ∀ l : List ℚ, ∀ j, j < l.length → l.getD (argminList l) 0 ≤ l.getD j 0 := by
  intro l
  induction l with
  | nil => intro j hj; simp at hj
  | cons a tail ih =>
    intro j hj
    cases tail with
    | nil =>
      cases j with
      | zero => simp [argminList]
      | succ i => exact absurd hj (by simp)
    | cons b rest =>
      by_cases hc : a ≤ (b :: rest).getD (argminList (b :: rest)) 0
      · simp only [argminList]
        rw [if_pos hc]
        simp only [List.getD_cons_zero]
        cases j with
        | zero => simp
        | succ i =>
          simp only [List.getD_cons_succ]
          exact hc.trans (ih i (Nat.lt_of_succ_lt_succ hj))
      · simp only [argminList]
        rw [if_neg hc]
        simp only [List.getD_cons_succ]
        cases j with
        | zero =>
          simpa using (le_of_lt (lt_of_not_le hc))
        | succ i =>
          simp only [List.getD_cons_succ]
          exact ih i (Nat.lt_of_succ_lt_succ hj)

theorem argminList_first :
    ∀ l : List ℚ, ∀ j, j < argminList l →
      l.getD (argminList l) 0 < l.getD j 0 := by
  intro l
  induction l with
  | nil => intro j hj; simp [argminList] at hj
  | cons a tail ih =>
    intro j hj
    cases tail with
    | nil => simp [argminList] at hj
    | cons b rest =>
      by_cases hc : a ≤ (b :: rest).getD (argminList (b :: rest)) 0
      · rw [show argminList (a :: b :: rest) = 0 by
          simp only [argminList]; rw [if_pos hc]] at hj
        exact absurd hj (by simp)
      · rw [show argminList (a :: b :: rest) = argminList (b :: rest) + 1 by
          simp only [argminList]; rw [if_neg hc]] at hj ⊢
        simp only [List.getD_cons_succ]
        cases j with
        | zero =>
          simpa using lt_of_not_le hc
        | succ i =>
          simp only [List.getD_cons_succ]
          exact ih i (Nat.lt_of_succ_lt_succ hj)

theorem getD_map_of_lt {α : Type} (f : α → ℚ) (l : List α) (j : Nat)
    (hj : j < l.length) : (l.map f).getD j 0 = f (l.get ⟨j, hj⟩) := by
  simp [List.getD_eq_getElem?_getD, List.getElem?_map, List.getElem?_eq_getElem hj]

/-- C6: get_central_element returns `none` when geometry is unresolved, and
on a nonempty resolved element list returns exactly the element whose
centroid (mean of node positions) attains the minimum squared Euclidean
distance to the unweighted mean of all centroids, taking the first index at
the minimum on ties (numpy argmin). -/
theorem get_central_element_spec :
    get_central_element none = none ∧
    ∀ es : List FE, es ≠ [] →
      ∃ k, ∃ hk : k < es.length,
        get_central_element (some es) = some (es.get ⟨k, hk⟩) ∧
        (∀ j, ∀ hj : j < es.length,
          sqDist (centroid (es.get ⟨k, hk⟩)) (ptsMean (es.map centroid)) ≤
            sqDist (centroid (es.get ⟨j, hj⟩)) (ptsMean (es.map centroid))) ∧
        (∀ j, ∀ hj : j < es.length, j < k →
          sqDist (centroid (es.get ⟨k, hk⟩)) (ptsMean (es.map centroid)) <
            sqDist (centroid (es.get ⟨j, hj⟩)) (ptsMean (es.map centroid))) := by
  refine ⟨rfl, ?_⟩
  intro es hes
  have hd : (es.map centroid).map
        (fun p => sqDist p (ptsMean (es.map centroid)))
      = es.map (fun e => sqDist (centroid e) (ptsMean (es.map centroid))) := by
    rw [List.map_map]
    rfl
  have hne : es.map (fun e => sqDist (centroid e) (ptsMean (es.map centroid)))
      ≠ [] := by
    intro h
    exact hes (List.map_eq_nil_iff.mp h)
  have hk0 := argminList_lt_length _ hne
  rw [List.length_map] at hk0
  refine ⟨_, hk0, ?_, ?_, ?_⟩
  · show List.get? es _ = _
    rw [hd]
    exact List.get?_eq_get hk0
  · intro j hj
    have h1 := argminList_le
      (es.map (fun e => sqDist (centroid e) (ptsMean (es.map centroid))))
      j (by rw [List.length_map]; exact hj)
    rwa [getD_map_of_lt _ _ _ hk0, getD_map_of_lt _ _ _ hj] at h1
  · intro j hj hjk
    have h1 := argminList_first
      (es.map (fun e => sqDist (centroid e) (ptsMean (es.map centroid)))) j hjk
    rwa [getD_map_of_lt _ _ _ hk0, getD_map_of_lt _ _ _ hj] at h1

/-- The feature of the spec's worked example: three single-node elements with
centroids (0,0,0), (2,0,0), (10,0,0). -/
def wFEs : List FE :=
  [⟨1, "CBAR", ⟨100, "PBAR"⟩, [(0, 0, 0)]⟩,
   ⟨2, "CBAR", ⟨100, "PBAR"⟩, [(2, 0, 0)]⟩,
   ⟨3, "CBAR", ⟨100, "PBAR"⟩, [(10, 0, 0)]⟩]

/-- Witness for C6 on the spec's example; the second conjunct additionally
evaluates the query: the element at (2,0,0) is returned (it is the closest to
the centroid mean (4,0,0)). -/
theorem get_central_element_spec_witness :
    (∃ k, ∃ hk : k < wFEs.length,
      get_central_element (some wFEs) = some (wFEs.get ⟨k, hk⟩) ∧
      (∀ j, ∀ hj : j < wFEs.length,
        sqDist (centroid (wFEs.get ⟨k, hk⟩)) (ptsMean (wFEs.map centroid)) ≤
          sqDist (centroid (wFEs.get ⟨j, hj⟩)) (ptsMean (wFEs.map centroid))) ∧
      (∀ j, ∀ hj : j < wFEs.length, j < k →
        sqDist (centroid (wFEs.get ⟨k, hk⟩)) (ptsMean (wFEs.map centroid)) <
          sqDist (centroid (wFEs.get ⟨j, hj⟩)) (ptsMean (wFEs.map centroid)))) ∧
    get_central_element (some wFEs) =
      some ⟨2, "CBAR", ⟨100, "PBAR"⟩, [(2, 0, 0)]⟩ := by
  refine ⟨get_central_element_spec.2 wFEs (by decide), ?_⟩
  norm_num [get_central_element, wFEs, centroid, ptsMean, sqDist, argminList,
    List.getD, List.get?]

/-! ## C5: collision suffixing of constant names -/

theorem add_dtable_fresh_ok (st : St) (key : String) (v : ℚ)
    (hom : dictHas st.om.dtables key = false)
    (hse : dictHas st.se.dtables key = false) :
    add_dtable st key v = .ok (key,
      { st with
        om := { st.om with dtables := dictSet st.om.dtables key v }
        se := { st.se with dtables := dictSet st.se.dtables key (key, v) } }) := by
  simp [add_dtable, hom, hse]

theorem add_dtable_collision_ok (st : St) (key : String) (v : ℚ) (c : Nat)
    (hin : dictHas st.om.dtables key = true)
    (hlen : key.length < 8)
    (hse : dictHas st.se.dtables key = false)
    (hc : (if dictHas st.om.dtable_prefixes key then
        (dictGet st.om.dtable_prefixes key).getD 0 + 1 else 0) = c)
    (hk2 : (key ++ rjust (toString c) (8 - key.length) '0').length ≤ 8) :
    add_dtable st key v = .ok
      (key ++ rjust (toString c) (8 - key.length) '0',
      { st with
        om := { st.om with
          dtables := dictSet st.om.dtables
            (key ++ rjust (toString c) (8 - key.length) '0') v
          dtable_prefixes := dictSet st.om.dtable_prefixes key c }
        se := { st.se with
          dtables := dictSet st.se.dtables key
            (key ++ rjust (toString c) (8 - key.length) '0', v) } }) := by
  have h8 : ¬ 8 ≤ key.length := by omega
  have h82 : ¬ 8 < (key ++ rjust (toString c) (8 - key.length) '0').length := by
    omega
  have hk2b : key.length + (rjust (toString c) (8 - key.length) '0').length ≤ 8 := by
    rw [← String.length_append]
    exact hk2
  simp [add_dtable, hin, h8, hse, hc, h82, hk2b]

theorem rjust_zero_data (u : Nat) :
    (rjust "0" (u + 1) '0').data = List.replicate (u + 1) '0' := by
  by_cases h : ("0" : String).length < u + 1
  · rw [rjust, if_pos h]
    show (List.replicate (u + 1 - 1) '0') ++ ("0" : String).data
      = List.replicate (u + 1) '0'
    simp only [Nat.add_sub_cancel]
    show List.replicate u '0' ++ ['0'] = List.replicate (u + 1) '0'
    rw [← List.replicate_succ' u '0']
  · have hu : u = 0 := by
      have : (1 : Nat) ≥ u + 1 := not_lt.mp h
      omega
    subst hu
    rw [rjust, if_neg h]
    decide

theorem rjust_one_data (u : Nat) :
    (rjust "1" (u + 1) '0').data = List.replicate u '0' ++ ['1'] := by
  by_cases h : ("1" : String).length < u + 1
  · rw [rjust, if_pos h]
    show (List.replicate (u + 1 - 1) '0') ++ ("1" : String).data
      = List.replicate u '0' ++ ['1']
    simp only [Nat.add_sub_cancel]
  · have hu : u = 0 := by
      have : (1 : Nat) ≥ u + 1 := not_lt.mp h
      omega
    subst hu
    rw [rjust, if_neg h]
    rfl

theorem replicate_getD_last (u : Nat) :
    (List.replicate (u + 1) '0').getD u 'x' = '0' := by
  induction u with
  | zero => rfl
  | succ n ih =>
    rw [List.replicate_succ]
    simpa using ih

theorem replicate_append_one_getD (u : Nat) :
    (List.replicate u '0' ++ ['1']).getD u 'x' = '1' := by
  induction u with
  | zero => rfl
  | succ n ih =>
    rw [List.replicate_succ]
    simpa using ih

/-- C5: for a base constant name shorter than 8 characters, a first
declaration keeps the name, and a second and a third declaration of the same
base name (each from a structural element whose own ledger does not already
hold it) succeed with pairwise-distinct resolved names, each at most 8
characters, formed by right-justifying the per-base-name counter value into
the remaining budget; after all three declarations every value is still
retrievable from the model under its own resolved name. -/
theorem add_dtable_three_declarations
    (name : String) (v1 v2 v3 : ℚ) (cnt : Counters) (om0 : OptModel)
    (se1 se2 se3 : SEState)
    (hlen : name.length < 8)
    (hom : dictHas om0.dtables name = false)
    (hpre : dictHas om0.dtable_prefixes name = false)
    (h1 : dictHas se1.dtables name = false)
    (h2 : dictHas se2.dtables name = false)
    (h3 : dictHas se3.dtables name = false) :
    ∃ st1 st2 st3 : St, ∃ k2 k3 : String,
      add_dtable ⟨cnt, om0, se1⟩ name v1 = .ok (name, st1) ∧
      add_dtable { st1 with se := se2 } name v2 = .ok (k2, st2) ∧
      add_dtable { st2 with se := se3 } name v3 = .ok (k3, st3) ∧
      name ≠ k2 ∧ name ≠ k3 ∧ k2 ≠ k3 ∧
      name.length ≤ 8 ∧ k2.length ≤ 8 ∧ k3.length ≤ 8 ∧
      dictGet st3.om.dtables name = some v1 ∧
      dictGet st3.om.dtables k2 = some v2 ∧
      dictGet st3.om.dtables k3 = some v3 := by
  obtain ⟨u, hu⟩ : ∃ u, 8 - name.length = u + 1 :=
    ⟨8 - name.length - 1, by omega⟩
  have ht0 : toString (0 : Nat) = "0" := rfl
  have ht1 : toString (1 : Nat) = "1" := rfl
  have hk2data : (rjust (toString (0 : Nat)) (8 - name.length) '0').data
      = List.replicate (u + 1) '0' := by
    rw [ht0, hu, rjust_zero_data]
  have hk3data : (rjust (toString (1 : Nat)) (8 - name.length) '0').data
      = List.replicate u '0' ++ ['1'] := by
    rw [ht1, hu, rjust_one_data]
  have hk2suffixlen : (rjust (toString (0 : Nat)) (8 - name.length) '0').length
      = u + 1 := by
    show (rjust (toString (0 : Nat)) (8 - name.length) '0').data.length = u + 1
    rw [hk2data, List.length_replicate]
  have hk3suffixlen : (rjust (toString (1 : Nat)) (8 - name.length) '0').length
      = u + 1 := by
    show (rjust (toString (1 : Nat)) (8 - name.length) '0').data.length = u + 1
    rw [hk3data]
    simp
  have hk2len : (name ++ rjust (toString (0 : Nat)) (8 - name.length) '0').length
      = 8 := by
    rw [String.length_append, hk2suffixlen]
    omega
  have hk3len : (name ++ rjust (toString (1 : Nat)) (8 - name.length) '0').length
      = 8 := by
    rw [String.length_append, hk3suffixlen]
    omega
  have hne12 : name ≠ name ++ rjust (toString (0 : Nat)) (8 - name.length) '0' := by
    intro h
    have hlc := congrArg String.length h
    rw [hk2len] at hlc
    omega
  have hne13 : name ≠ name ++ rjust (toString (1 : Nat)) (8 - name.length) '0' := by
    intro h
    have hlc := congrArg String.length h
    rw [hk3len] at hlc
    omega
  have hne23 : name ++ rjust (toString (0 : Nat)) (8 - name.length) '0'
      ≠ name ++ rjust (toString (1 : Nat)) (8 - name.length) '0' := by
    intro h
    have hd := congrArg String.data h
    rw [String.data_append, String.data_append, hk2data, hk3data] at hd
    have hcancel := List.append_cancel_left hd
    have hgd := congrArg (fun l => l.getD u 'x') hcancel
    simp only [replicate_getD_last, replicate_append_one_getD] at hgd
    exact absurd hgd (by decide)
  have e1 : add_dtable ⟨cnt, om0, se1⟩ name v1 = .ok (name,
      ⟨cnt, { om0 with dtables := dictSet om0.dtables name v1 },
        { se1 with dtables := dictSet se1.dtables name (name, v1) }⟩) :=
    add_dtable_fresh_ok ⟨cnt, om0, se1⟩ name v1 hom h1
  have e2 : add_dtable
      ⟨cnt, { om0 with dtables := dictSet om0.dtables name v1 }, se2⟩ name v2
      = .ok (name ++ rjust (toString (0 : Nat)) (8 - name.length) '0',
      ⟨cnt,
        { om0 with
          dtables := dictSet (dictSet om0.dtables name v1)
            (name ++ rjust (toString (0 : Nat)) (8 - name.length) '0') v2
          dtable_prefixes := dictSet om0.dtable_prefixes name 0 },
        { se2 with
          dtables := dictSet se2.dtables name
            (name ++ rjust (toString (0 : Nat)) (8 - name.length) '0', v2) }⟩) :=
    add_dtable_collision_ok
      ⟨cnt, { om0 with dtables := dictSet om0.dtables name v1 }, se2⟩ name v2 0
      (by simp [dictHas, dictGet_dictSet_self]) hlen h2
      (by simp [hpre]) (by omega)
  have e3 : add_dtable
      ⟨cnt,
        { om0 with
          dtables := dictSet (dictSet om0.dtables name v1)
            (name ++ rjust (toString (0 : Nat)) (8 - name.length) '0') v2
          dtable_prefixes := dictSet om0.dtable_prefixes name 0 }, se3⟩ name v3
      = .ok (name ++ rjust (toString (1 : Nat)) (8 - name.length) '0',
      ⟨cnt,
        { om0 with
          dtables := dictSet (dictSet (dictSet om0.dtables name v1)
            (name ++ rjust (toString (0 : Nat)) (8 - name.length) '0') v2)
            (name ++ rjust (toString (1 : Nat)) (8 - name.length) '0') v3
          dtable_prefixes := dictSet (dictSet om0.dtable_prefixes name 0) name 1 },
        { se3 with
          dtables := dictSet se3.dtables name
            (name ++ rjust (toString (1 : Nat)) (8 - name.length) '0', v3) }⟩) :=
    add_dtable_collision_ok
      ⟨cnt,
        { om0 with
          dtables := dictSet (dictSet om0.dtables name v1)
            (name ++ rjust (toString (0 : Nat)) (8 - name.length) '0') v2
          dtable_prefixes := dictSet om0.dtable_prefixes name 0 }, se3⟩ name v3 1
      (by simp [dictHas, dictGet_dictSet_ne _ _ _ _ hne12, dictGet_dictSet_self])
      hlen h3
      (by simp [dictHas, dictGet_dictSet_self]) (by omega)
  refine ⟨_, _, _, _, _, e1, e2, e3, hne12, hne13, hne23,
    by omega, by omega, by omega, ?_, ?_, ?_⟩
  · rw [dictGet_dictSet_ne _ _ _ _ hne13, dictGet_dictSet_ne _ _ _ _ hne12,
      dictGet_dictSet_self]
  · rw [dictGet_dictSet_ne _ _ _ _ hne23, dictGet_dictSet_self]
  · rw [dictGet_dictSet_self]

/-- Witness for C5: three declarations of "ALPHA" over a fresh model from
three fresh structural elements. -/
theorem add_dtable_three_declarations_witness :
    ∃ st1 st2 st3 : St, ∃ k2 k3 : String,
      add_dtable ⟨initCounters, emptyOm, emptySe⟩ "ALPHA" 1 = .ok ("ALPHA", st1) ∧
      add_dtable { st1 with se := emptySe } "ALPHA" 2 = .ok (k2, st2) ∧
      add_dtable { st2 with se := emptySe } "ALPHA" 3 = .ok (k3, st3) ∧
      "ALPHA" ≠ k2 ∧ "ALPHA" ≠ k3 ∧ k2 ≠ k3 ∧
      ("ALPHA" : String).length ≤ 8 ∧ k2.length ≤ 8 ∧ k3.length ≤ 8 ∧
      dictGet st3.om.dtables "ALPHA" = some 1 ∧
      dictGet st3.om.dtables k2 = some 2 ∧
      dictGet st3.om.dtables k3 = some 3 :=
  add_dtable_three_declarations "ALPHA" 1 2 3 initCounters emptyOm
    emptySe emptySe emptySe (by decide) (by decide) (by decide)
    (by decide) (by decide) (by decide)

/-! ## C1: layout equivalence of read_forces -/

theorem contains_true_of_mem {l : List Nat} {a : Nat} (h : a ∈ l) :
    l.contains a = true :=
  List.elem_eq_true_of_mem h

theorem mem_of_contains_true {l : List Nat} {a : Nat} (h : l.contains a = true) :
    a ∈ l :=
  List.mem_of_elem_eq_true h

theorem filter_contains_of_sublist :
    ∀ {eids element : List Nat}, eids.Sublist element → element.Nodup →
      element.filter (fun e => eids.contains e) = eids := by
  intro eids element hsub
  induction hsub with
  | slnil => intro _; rfl
  | @cons l₁ l₂ a hsub ih =>
    intro hnd
    have hnotmem : a ∉ l₂ := (List.nodup_cons.mp hnd).1
    have ha : l₁.contains a = false := by
      by_contra hcon
      have : l₁.contains a = true := by
        cases hval : l₁.contains a
        · exact absurd hval hcon
        · rfl
      exact hnotmem (hsub.subset (mem_of_contains_true this))
    rw [List.filter_cons, ha]
    exact ih (List.nodup_cons.mp hnd).2
  | @cons₂ l₁ l₂ a hsub ih =>
    intro hnd
    have hnotmem : a ∉ l₂ := (List.nodup_cons.mp hnd).1
    rw [List.filter_cons]
    have hpa : (a :: l₁).contains a = true :=
      contains_true_of_mem (List.mem_cons_self _ _)
    rw [hpa]
    simp only [if_true]
    congr 1
    have hcongr : ∀ e ∈ l₂, (a :: l₁).contains e = l₁.contains e := by
      intro e he
      have hne : ¬ (e = a) := fun h => hnotmem (h ▸ he)
      simp [List.contains_cons, hne]
    rw [List.filter_congr hcongr]
    exact ih (List.nodup_cons.mp hnd).2

theorem maskSelect_map (element eids : List Nat) (f : Nat → List ℚ) :
    maskSelect element eids (element.map f) =
      (element.filter (fun e => eids.contains e)).map f := by
  induction element with
  | nil => rfl
  | cons a l ih =>
    simp only [List.map_cons, maskSelect, List.zip_cons_cons, List.filter_cons]
    by_cases hp : eids.contains a
    · simp only [hp, List.filter_cons_of_pos, if_true, List.map_cons]
      exact congrArg (List.cons (f a)) (by simpa [maskSelect] using ih)
    · simp only [Bool.not_eq_true] at hp
      simp only [hp, if_false, Bool.false_eq_true]
      simpa [maskSelect] using ih

theorem scatterRows_all (nv : Nat) (element : List Nat) :
    ∀ (eids : List Nat) (f : Nat → List ℚ),
      (∀ e ∈ eids, element.contains e = true) →
      scatterRows nv element eids (eids.map f) = eids.map f := by
  intro eids
  induction eids with
  | nil => intro f _; rfl
  | cons e rest ih =>
    intro f h
    simp only [List.map_cons, scatterRows, h e (List.mem_cons_self _ _), if_true]
    exact congrArg₂ List.cons rfl
      (ih f (fun x hx => h x (List.mem_cons_of_mem _ hx)))

theorem getD_map_get {α β : Type} (f : α → β) (l : List α) (j : Nat) (d : β)
    (hj : j < l.length) : (l.map f).getD j d = f (l.get ⟨j, hj⟩) := by
  simp [List.getD_eq_getElem?_getD, List.getElem?_map, List.getElem?_eq_getElem hj]

theorem range_map_ext {α β : Type} (l : List α) (d : α) (F : Nat → β)
    (H : α → β) (h : ∀ j, j < l.length → F j = H (l.getD j d)) :
    (List.range l.length).map F = l.map H := by
  induction l generalizing F with
  | nil => rfl
  | cons a rest ih =>
    rw [List.length_cons, List.range_succ_eq_map, List.map_cons, List.map_map]
    congr 1
    · exact h 0 (by simp)
    · exact ih (F ∘ Nat.succ)
        (fun j hj => by simpa using h (j + 1) (Nat.succ_lt_succ hj))

theorem map_eq_of_forall₂ {α β γ : Type} {R : α → β → Prop} {as : List α}
    {bs : List β} (h : List.Forall₂ R as bs) (F : α → γ) (G : β → γ)
    (hFG : ∀ a b, R a b → F a = G b) : as.map F = bs.map G := by
  induction h with
  | nil => rfl
  | cons hr _ ih => simp [hFG _ _ hr, ih]

/-- C1 (amended): the two read_forces paths agree whenever the vectorized
source's element ordering is duplicate-free and the feature's element-id list
is a subsequence of it — i.e. every feature element appears in the results
and the two orderings list the shared elements in the same relative order
(the masked-scatter of the vectorized path aligns selected rows with feature
positions purely by order). -/
theorem read_forces_layout_equiv
    (eids : List Nat) (subsObj : List CbarForceObj)
    (subsVec : List CbarForceVecSub)
    (hsame : sameUnderlyingData eids subsObj subsVec)
    (hnd : (subsVec.headD default).element.Nodup)
    (hsub : eids.Sublist (subsVec.headD default).element)
    (helem : (subsVec.headD default).element ≠ []) :
    read_forces_vec eids subsVec = read_forces_obj eids subsObj := by
  obtain ⟨hne, hlen, hall, hmem⟩ := hsame
  obtain ⟨s0, srest, rfl⟩ : ∃ s0 srest, subsVec = s0 :: srest := by
    cases subsVec with
    | nil => exact absurd rfl hne
    | cons s0 srest => exact ⟨s0, srest, rfl⟩
  simp only [List.headD_cons] at hnd hsub helem hall
  have hdata : List.Forall₂
      (fun sub sc => sub.data.getLastD [] = s0.element.map (objRow sc))
      (s0 :: srest) subsObj := by
    rw [List.forall₂_iff_zip]
    refine ⟨hlen, fun {a b} hab => ?_⟩
    have h1 := List.all_eq_true.mp hall _ hab
    simpa using of_decide_eq_true h1
  obtain ⟨o0, orest, h00, hdrest, rfl⟩ := List.forall₂_cons_left_iff.mp hdata
  obtain ⟨e0, erest, helem0⟩ : ∃ e0 erest, s0.element = e0 :: erest := by
    cases hE : s0.element with
    | nil => exact absurd hE helem
    | cons e0 erest => exact ⟨e0, erest, rfl⟩
  have hnv : vecNv (s0 :: srest) = 8 := by
    unfold vecNv
    simp only [List.headD_cons]
    rw [h00, helem0, List.map_cons, List.headD_cons]
    simp [objRow]
  have hS : ∀ (sub : CbarForceVecSub) (sc : CbarForceObj),
      sub.data.getLastD [] = s0.element.map (objRow sc) →
      scatterRows 8 s0.element eids
        (maskSelect s0.element eids (sub.data.getLastD []))
      = eids.map (objRow sc) := by
    intro sub sc hrow
    rw [hrow, maskSelect_map, filter_contains_of_sublist hsub hnd]
    exact scatterRows_all 8 s0.element eids (objRow sc)
      (fun e he => contains_true_of_mem (hsub.subset he))
  have hcomp : ∀ (c : Nat) (comp : CbarForceObj → Nat → ℚ),
      (∀ sc e, (objRow sc e).getD c 0 = comp sc e) →
      (List.range eids.length).map (fun j => (s0 :: srest).map (fun sub =>
        ((scatterRows 8 s0.element eids
          (maskSelect s0.element eids (sub.data.getLastD []))).getD j []).getD c 0))
      = eids.map (fun e => (o0 :: orest).map (fun sc => comp sc e)) := by
    intro c comp hc
    apply range_map_ext eids 0
    intro j hj
    have hmap := map_eq_of_forall₂ hdata
      (fun sub => ((scatterRows 8 s0.element eids
        (maskSelect s0.element eids (sub.data.getLastD []))).getD j []).getD c 0)
      (fun sc => ((eids.map (objRow sc)).getD j []).getD c 0)
      (fun a b hb => by dsimp only; rw [hS a b hb])
    rw [hmap]
    have hg : eids.getD j 0 = eids.get ⟨j, hj⟩ := by
      rw [List.getD_eq_getElem?_getD, List.getElem?_eq_getElem hj]
      rfl
    rw [hg]
    congr 1
    funext sc
    rw [getD_map_get (objRow sc) eids j [] hj, hc sc (eids.get ⟨j, hj⟩)]
  unfold read_forces_vec read_forces_obj
  simp only [List.headD_cons]
  rw [hnv]
  transitivity (List.range 8).map (fun c => eids.map (fun e =>
    (o0 :: orest).map (fun sc => (objRow sc e).getD c 0)))
  · congr 1
    funext c
    exact hcomp c (fun sc e => (objRow sc e).getD c 0) (fun sc e => rfl)
  · rfl

/-- C1 counterexample: the claim as stated is false. Feature element list
[11, 10] and op2 element ordering [10, 11] expose the same underlying
per-element data in both layouts, yet the vectorized path scatters the op2
rows by position, pairing element 10's row with feature slot 0 (element 11),
so the two extractions differ. -/
theorem read_forces_layouts_counterexample :
    sameUnderlyingData [11, 10] [ceObjSub] [ceVecSub] ∧
    read_forces_vec [11, 10] [ceVecSub] ≠ read_forces_obj [11, 10] [ceObjSub] := by
  unfold sameUnderlyingData
  decide

/-- Witness for the amended C1 theorem: identically-ordered sources on
elements [10, 11, 12] (the spec's worked example), where the two layouts
agree. -/
theorem read_forces_layout_equiv_witness :
    read_forces_vec [10, 11, 12] [wVecSub] = read_forces_obj [10, 11, 12] [wObjSub] :=
  read_forces_layout_equiv [10, 11, 12] [wObjSub] [wVecSub]
    (by refine ⟨by decide, rfl, ?_, by decide⟩; decide)
    (by decide) (List.Sublist.refl _) (by decide)
